import Mathlib

/-!
Verification development for the piano-capture repository.

The definitions below are a shallow embedding of `piano_capture/app.py`
(functions `capture_performance` and `run`) and of the mono-branch weight
validation of `piano_capture/postprocess.py` (`process_wav_files`).
Clock readings, sleep durations and event deltas are modelled as rationals;
the audio stream clock, the devices and the operating system are modelled by
explicit oracles (jitter lists, open-success flags, interrupt points), so the
embedded functions are executable and every run of the Python control flow
corresponds to one choice of oracle values.
-/

namespace PianoCapture

/-- One message yielded by iterating `mido.MidiFile`: `time` is the relative
delta in seconds since the previous event, `isMeta` tells whether it is a
`MetaMessage`, and `payload` abstracts the message bytes. -/
structure MidiMsg where
  time : ℚ
  isMeta : Bool
  payload : ℕ
deriving DecidableEq

/-- Result of one iteration of the playback loop body: the stream-clock value
after the (possible) sleep, the updated `input_time` accumulator, and whether
`time.sleep` was called. -/
structure StepRes where
  clock : ℚ
  inputTime : ℚ
  slept : Bool
deriving DecidableEq

/-- Body of the loop in `capture_performance` (app.py lines 105-116), for one
message: `input_time += msg.time`; read `playback_time = clock - start_time`
(the clock has advanced by `pre ≥ 0` since the previous iteration); if
`duration_to_next_event > 0`, sleep for it (an actual sleep lasts at least the
requested duration: the clock advances by the duration plus `post ≥ 0`). -/
def playStep (start t it : ℚ) (m : MidiMsg) (pre post : ℚ) : StepRes :=
  let it2 := it + m.time
  let t1 := t + pre
  let wait := it2 - (t1 - start)
  if 0 < wait then ⟨t1 + wait + post, it2, true⟩ else ⟨t1, it2, false⟩

/-- Outcome of the playback loop: each dispatched (non-meta) event together
with the stream-clock instant of its `out_port.send` and the value of the
`input_time` accumulator at that point, plus the final clock and accumulator. -/
structure PlayResult where
  dispatches : List (MidiMsg × ℚ × ℚ)
  finalClock : ℚ
  finalInput : ℚ
deriving DecidableEq

/-- The playback loop of `capture_performance` (app.py lines 105-116): every
message advances the `input_time` accumulator and possibly sleeps; a
`MetaMessage` is then skipped by `continue`, any other message is sent to the
output port. `env` supplies, per iteration, the clock advance before the
reading and the sleep overshoot (both nonnegative for a real clock). -/
def playLoop (start : ℚ) : List MidiMsg → List (ℚ × ℚ) → ℚ → ℚ → PlayResult
  | [], _, t, it => ⟨[], t, it⟩
  | m :: ms, env, t, it =>
    let e := env.headD (0, 0)
    let s := playStep start t it m e.1 e.2
    let res := playLoop start ms env.tail s.clock s.inputTime
    if m.isMeta then res
    else { res with dispatches := (m, s.clock, s.inputTime) :: res.dispatches }

/-- Scheduled instants: each message paired with the cumulative sum of deltas
up to and including it, starting from accumulator value `it`. -/
def cumTimes (it : ℚ) : List MidiMsg → List (MidiMsg × ℚ)
  | [] => []
  | m :: ms => (m, it + m.time) :: cumTimes (it + m.time) ms

/-- Environment oracle for one capture session: whether `MidiFile`,
`open_output`, `sf.SoundFile` and `sd.InputStream` succeed, whether (and at
which loop iteration) a `KeyboardInterrupt` arrives inside the guarded block,
and whether `file.close()` / `Path(file.name).unlink()` raise during the
interrupt teardown. -/
structure Oracle where
  parseOk : Bool
  portOk : Bool
  fileOk : Bool
  streamOk : Bool
  interruptAt : Option ℕ
  closeFails : Bool
  unlinkFails : Bool
deriving DecidableEq

/-- Exceptions that can propagate out of `capture_performance` uncaught. -/
inductive CaptureExn
  | outPort
  | soundFile
  | inputStream
  | teardownClose
  | teardownUnlink
deriving DecidableEq

/-- How one call of `capture_performance` terminates: a normal Python
`return`, a `sys.exit` with the given status, or an uncaught exception. -/
inductive CaptureOutcome
  | returned
  | exited (code : ℕ)
  | raised (e : CaptureExn)
deriving DecidableEq

/-- Observable result of one `capture_performance` call: termination mode,
events sent to the MIDI output port (with stream-clock send instant and
accumulator value), number of `out_port.reset()` calls, whether the
destination file exists on disk afterwards, and the audio blocks committed to
it (the content of a file left behind by an abnormal path carries no committed
audio and is modelled as empty; no claim depends on it). -/
structure CaptureResult where
  outcome : CaptureOutcome
  dispatched : List (MidiMsg × ℚ × ℚ)
  resetCount : ℕ
  fileExists : Bool
  fileContent : List ℕ
deriving DecidableEq

/-- Python truthiness of the `channel_map` argument: `None` and the empty
list are falsy, a non-empty list is truthy. -/
def pyTruthy (m : Option (List ℕ)) : Bool :=
  match m with
  | none => false
  | some l => !l.isEmpty

/-- Shallow embedding of `capture_performance` (app.py lines 20-132).
Control flow in source order: the `channel_map` length guard (line 59, guarded
by Python truthiness of `channel_map`) returns early; a `MidiFile` parse
failure (line 71) is caught and returns early; failures of `open_output`,
`sf.SoundFile` and `sd.InputStream` are uncaught and propagate (opening the
sound file in `w` mode creates it on disk, so a subsequent `InputStream`
failure leaves the file behind).  With all four opens successful, a
`KeyboardInterrupt` during iteration `k` of the guarded block runs the
handler of lines 125-132: `file.close()`, `unlink`, `out_port.reset()`,
`out_port.close()`, `sys.exit(130)`, each step aborting the rest if it
raises.  Without interrupt, the whole file plays, the buffered audio blocks
are committed in order and the call returns normally.  `delayMs` mirrors the
`delay_ms` parameter, which the body never reads. -/
def capture_performance (delayMs : ℤ) (numChannels : ℕ) (channelMap : Option (List ℕ))
    (msgs : List MidiMsg) (env : List (ℚ × ℚ)) (orc : Oracle) (blocks : List ℕ) :
    CaptureResult :=
  if pyTruthy channelMap ∧ numChannels ≠ (channelMap.getD []).length then
    ⟨.returned, [], 0, false, []⟩
  else if orc.parseOk = false then
    ⟨.returned, [], 0, false, []⟩
  else if orc.portOk = false then
    ⟨.raised .outPort, [], 0, false, []⟩
  else if orc.fileOk = false then
    ⟨.raised .soundFile, [], 0, false, []⟩
  else if orc.streamOk = false then
    ⟨.raised .inputStream, [], 0, true, []⟩
  else
    match orc.interruptAt with
    | some k =>
      let sent := (playLoop 0 (msgs.take k) env 0 0).dispatches
      if orc.closeFails then ⟨.raised .teardownClose, sent, 0, true, []⟩
      else if orc.unlinkFails then ⟨.raised .teardownUnlink, sent, 0, true, []⟩
      else ⟨.exited 130, sent, 1, false, []⟩
    | none =>
      ⟨.returned, (playLoop 0 msgs env 0 0).dispatches, 0, true, blocks⟩

/-- Structured file path: directory components, stem, extension. -/
structure FPath where
  dirs : List String
  stem : String
  ext : String
deriving DecidableEq

/-- Static configuration of one `run` invocation (app.py lines 135-147). -/
structure RunCfg where
  delayMs : ℤ
  numChannels : ℕ
  channelMap : Option (List ℕ)
  cooldown : Option (ℚ × ℚ)
  outputSuffix : String
  midiRootLen : ℕ
  audioRootDirs : List String
deriving DecidableEq

/-- Destination path derivation (app.py lines 244-250): the path relative to
the MIDI root, the suffix appended to the stem, the extension replaced by
`.wav`, re-rooted under the audio root. -/
def deriveDest (cfg : RunCfg) (p : FPath) : FPath :=
  ⟨cfg.audioRootDirs ++ p.dirs.drop cfg.midiRootLen, p.stem ++ cfg.outputSuffix, ".wav"⟩

/-- Lookup in the modelled on-disk file system (an association list from
paths to committed audio content). -/
def fsLookup (k : FPath) : List (FPath × List ℕ) → Option (List ℕ)
  | [] => none
  | (k2, v) :: rest => if k = k2 then some v else fsLookup k rest

/-- Reasons `run` stops before its session loop (app.py lines 204-217): each
corresponds to `sys.exit(1)`, except `zeroDivCrash`, the unhandled
`ZeroDivisionError` raised by `cooldown_parameters[0] / cooldown_parameters[1]`
when the rest component is zero (also a non-zero process exit). -/
inductive ConfigReject
  | channelMismatch
  | cooldownMissing
  | ratioTooHigh
  | zeroDivCrash
deriving DecidableEq

/-- The configuration validation prefix of `run` (app.py lines 204-217), in
source order: the `channel_map` length guard (guarded by truthiness), then
rejection of `None` cooldown parameters, then rejection of a
threshold-to-rest ratio greater than 5. -/
def configCheck (numChannels : ℕ) (channelMap : Option (List ℕ))
    (cooldown : Option (ℚ × ℚ)) : Option ConfigReject :=
  if pyTruthy channelMap ∧ numChannels ≠ (channelMap.getD []).length then
    some .channelMismatch
  else
    match cooldown with
    | none => some .cooldownMissing
    | some (t, r) =>
      if r = 0 then some .zeroDivCrash
      else if 5 < t / r then some .ratioTooHigh
      else none

/-- Process exit status corresponding to each configuration rejection:
`sys.exit(1)` for the explicit checks, status 1 for the unhandled
`ZeroDivisionError`. All are non-zero. -/
def configExitCode : ConfigReject → ℕ
  | .channelMismatch => 1
  | .cooldownMissing => 1
  | .ratioTooHigh => 1
  | .zeroDivCrash => 1

/-- Why the session loop of `run` stopped before exhausting its sources: a
`sys.exit` from an interrupted session, or an exception that
`capture_performance` let propagate (nothing in `run` catches it). -/
inductive RunStop
  | interrupted (code : ℕ)
  | uncaught (e : CaptureExn)
deriving DecidableEq

/-- The session loop of `run` (app.py lines 239-265), restricted to its
file-system and session effects (the cooldown timing of lines 240-242 is
modelled separately by `cooldownLoop`; it does not touch files or sessions).
Per source file: derive the destination; if it exists, skip; otherwise call
`capture_performance` (which writes the destination file exactly when its
result says so) and continue, unless the call exited or raised, which ends
the whole process. Returns the sources for which a session was invoked, the
final file system, and the stop reason if any. -/
def runLoop (cfg : RunCfg) (orc : FPath → Oracle) (msgs : FPath → List MidiMsg)
    (env : FPath → List (ℚ × ℚ)) (blocks : FPath → List ℕ) :
    List FPath → List (FPath × List ℕ) →
    List FPath × List (FPath × List ℕ) × Option RunStop
  | [], fs => ([], fs, none)
  | p :: ps, fs =>
    if (fsLookup (deriveDest cfg p) fs).isSome then
      runLoop cfg orc msgs env blocks ps fs
    else
      let r := capture_performance cfg.delayMs cfg.numChannels cfg.channelMap
        (msgs p) (env p) (orc p) (blocks p)
      let fs2 := if r.fileExists then (deriveDest cfg p, r.fileContent) :: fs else fs
      match r.outcome with
      | .returned =>
        let res := runLoop cfg orc msgs env blocks ps fs2
        (p :: res.1, res.2.1, res.2.2)
      | .exited c => ([p], fs2, some (.interrupted c))
      | .raised e => ([p], fs2, some (.uncaught e))

/-- Observable result of one `run` invocation. -/
structure RunResult where
  configReject : Option ConfigReject
  invoked : List FPath
  fs : List (FPath × List ℕ)
  stopped : Option RunStop
deriving DecidableEq

/-- Shallow embedding of `run` (app.py lines 135-265): the configuration
checks, then the session loop over the (already size-sorted) source list.
A configuration rejection exits before any session: no file is touched. -/
def run (cfg : RunCfg) (sources : List FPath) (orc : FPath → Oracle)
    (msgs : FPath → List MidiMsg) (env : FPath → List (ℚ × ℚ))
    (blocks : FPath → List ℕ) (fs : List (FPath × List ℕ)) : RunResult :=
  match configCheck cfg.numChannels cfg.channelMap cfg.cooldown with
  | some rej => ⟨some rej, [], fs, none⟩
  | none =>
    let res := runLoop cfg orc msgs env blocks sources fs
    ⟨none, res.1, res.2.1, res.2.2⟩

/-- Cooldown bookkeeping of the session loop (app.py lines 236-242): the
forced rest intervals `(start, end)` and the boundary instants at which the
threshold check ran. -/
structure CooldownTrace where
  rests : List (ℚ × ℚ)
  boundaries : List ℚ
deriving DecidableEq

/-- The cooldown logic at the top of each loop iteration (app.py lines
236-242): `cooldown_timer` starts at the current time; before each session,
if `time.time() - cooldown_timer > threshold` then sleep for the rest
duration and re-read the timer. Each step of `steps` supplies the wall-clock
advance before the check, the sleep overshoot of the rest, and the duration
of the session itself (the check runs only here, at the session boundary, so
a running session is never interrupted by construction). -/
def cooldownLoop (thr dur : ℚ) : List (ℚ × ℚ × ℚ) → ℚ → ℚ → CooldownTrace
  | [], _, _ => ⟨[], []⟩
  | step :: steps, t, timer =>
    if thr < t + step.1 - timer then
      ⟨(t + step.1, t + step.1 + dur + step.2.1) ::
          (cooldownLoop thr dur steps (t + step.1 + dur + step.2.1 + step.2.2)
            (t + step.1 + dur + step.2.1)).rests,
        (t + step.1) ::
          (cooldownLoop thr dur steps (t + step.1 + dur + step.2.1 + step.2.2)
            (t + step.1 + dur + step.2.1)).boundaries⟩
    else
      ⟨(cooldownLoop thr dur steps (t + step.1 + step.2.2) timer).rests,
        (t + step.1) :: (cooldownLoop thr dur steps (t + step.1 + step.2.2) timer).boundaries⟩

/-- Checks that every adjacent pair of rest intervals is separated by at
least `thr`: the start of each rest comes at least `thr` after the end of the
previous one. -/
def restGaps (thr : ℚ) : List (ℚ × ℚ) → Bool
  | a :: b :: rest => decide (thr ≤ b.1 - a.2) && restGaps thr (b :: rest)
  | _ => true

/-- Membership of an instant in a list of instants. -/
def memTimes (x : ℚ) : List ℚ → Bool
  | [] => false
  | y :: ys => if x = y then true else memTimes x ys

/-- Python exceptions relevant to the `process_wav_files` weight guard. -/
inductive PyErr
  | valueError
  | typeError
deriving DecidableEq

/-- Python 3 semantics of `channel_weights < 1`: comparing a `list` with an
`int` raises `TypeError`. -/
def pyLtListInt (_l : List ℚ) (_n : ℤ) : Except PyErr Bool :=
  .error .typeError

/-- Shallow embedding of the `stereo=False` weight guard of
`process_wav_files` (postprocess.py lines 37-38):
`if (channel_weights is None) or (len(channel_weights < 1)): raise ValueError`.
A `None` makes the first disjunct true and raises the `ValueError`; otherwise
the second disjunct evaluates `channel_weights < 1` first, which raises
`TypeError` for every list (and even if a boolean came back, `len` of a
boolean would also raise `TypeError`). The transcoding call (line 53) is
reached only on an `ok` result. -/
def channelWeightsGuard (cw : Option (List ℚ)) : Except PyErr Unit :=
  match cw with
  | none => .error .valueError
  | some l =>
    match pyLtListInt l 1 with
    | .error e => .error e
    | .ok _ => .error .typeError

/-! ### Helper lemmas about the playback loop -/

theorem playStep_inputTime (start t it : ℚ) (m : MidiMsg) (pre post : ℚ) :
    (playStep start t it m pre post).inputTime = it + m.time := by
  simp only [playStep]
  split <;> rfl

theorem playLoop_dispatch_fst (start : ℚ) (msgs : List MidiMsg) :
    ∀ (env : List (ℚ × ℚ)) (t it : ℚ),
      (playLoop start msgs env t it).dispatches.map Prod.fst
        = msgs.filter (fun m => !m.isMeta) := by
  induction msgs with
  | nil => intro env t it; rfl
  | cons m ms ih =>
    intro env t it
    by_cases hm : m.isMeta <;>
      simp [playLoop, hm, List.filter_cons, ih]

theorem playLoop_finalInput (start : ℚ) (msgs : List MidiMsg) :
    ∀ (env : List (ℚ × ℚ)) (t it : ℚ),
      (playLoop start msgs env t it).finalInput
        = it + (msgs.map MidiMsg.time).sum := by
  induction msgs with
  | nil => intro env t it; simp [playLoop]
  | cons m ms ih =>
    intro env t it
    by_cases hm : m.isMeta <;>
      simp [playLoop, hm, ih, playStep_inputTime] <;> ring

theorem playLoop_schedule (start : ℚ) (msgs : List MidiMsg) :
    ∀ (env : List (ℚ × ℚ)) (t it : ℚ),
      (playLoop start msgs env t it).dispatches.map (fun d => (d.1, d.2.2))
        = (cumTimes it msgs).filter (fun x => !x.1.isMeta) := by
  induction msgs with
  | nil => intro env t it; rfl
  | cons m ms ih =>
    intro env t it
    by_cases hm : m.isMeta <;>
      simp [playLoop, hm, cumTimes, List.filter_cons, ih, playStep_inputTime]

theorem playLoop_no_early (start : ℚ) (msgs : List MidiMsg) :
    ∀ (env : List (ℚ × ℚ)) (t it : ℚ),
      (∀ e ∈ env, 0 ≤ e.1 ∧ 0 ≤ e.2) →
      ∀ d ∈ (playLoop start msgs env t it).dispatches, start + d.2.2 ≤ d.2.1 := by
  induction msgs with
  | nil => intro env t it _ d hd; simp [playLoop] at hd
  | cons m ms ih =>
    intro env t it henv d hd
    have htail : ∀ e ∈ env.tail, 0 ≤ e.1 ∧ 0 ≤ e.2 :=
      fun e he => henv e (List.mem_of_mem_tail he)
    have hpost : 0 ≤ (env.headD (0, 0)).2 := by
      cases env with
      | nil => simp
      | cons a as => exact (henv a (List.mem_cons_self a as)).2
    by_cases hm : m.isMeta
    · simp only [playLoop, hm, if_true] at hd
      exact ih env.tail _ _ htail d hd
    · simp only [playLoop, hm, Bool.false_eq_true, if_false, List.mem_cons] at hd
      rcases hd with rfl | hd
      · simp only [playStep]
        split
        · rename_i hw
          simp only
          nlinarith [hpost]
        · rename_i hw
          simp only
          push_neg at hw
          nlinarith
      · exact ih env.tail _ _ htail d hd

/-! ### Claim theorems: the capture session -/

/-- C1: for every Performance Source, a capture session that completes
(all opens succeed, no interrupt) sends to the MIDI output exactly the
source's non-meta events, in source order; meta events advance the
`input_time` accumulator (which ends at the total sum of all deltas, meta
included) but are never dispatched. -/
theorem c1_dispatch_exact (d : ℤ) (nc : ℕ) (cm : Option (List ℕ))
    (msgs : List MidiMsg) (env : List (ℚ × ℚ)) (orc : Oracle) (blocks : List ℕ)
    (hcfg : ¬(pyTruthy cm ∧ nc ≠ (cm.getD []).length))
    (hparse : orc.parseOk = true) (hport : orc.portOk = true)
    (hfile : orc.fileOk = true) (hstream : orc.streamOk = true)
    (hint : orc.interruptAt = none) :
    (capture_performance d nc cm msgs env orc blocks).dispatched.map Prod.fst
        = msgs.filter (fun m => !m.isMeta)
      ∧ (playLoop 0 msgs env 0 0).finalInput = (msgs.map MidiMsg.time).sum := by
  constructor
  · simp only [capture_performance, if_neg hcfg, hparse, hport, hfile, hstream, hint]
    simp [playLoop_dispatch_fst]
  · simp [playLoop_finalInput]

/-- C1 witness: a concrete two-event source (one meta, one note) with a
fully successful session dispatches exactly the note. -/
theorem c1_dispatch_exact_witness :
    (capture_performance 500 2 none [⟨1, true, 0⟩, ⟨2, false, 60⟩] []
          ⟨true, true, true, true, none, false, false⟩ []).dispatched.map Prod.fst
        = [⟨1, true, 0⟩, ⟨2, false, 60⟩].filter (fun m => !m.isMeta)
      ∧ (playLoop 0 [⟨1, true, 0⟩, ⟨2, false, 60⟩] [] 0 0).finalInput
        = ([⟨1, true, 0⟩, ⟨2, false, 60⟩].map MidiMsg.time).sum :=
  c1_dispatch_exact 500 2 none [⟨1, true, 0⟩, ⟨2, false, 60⟩] []
    ⟨true, true, true, true, none, false, false⟩ []
    (by decide) rfl rfl rfl rfl rfl

/-- C4: with a monotone stream clock (nonnegative clock advance before each
reading, nonnegative sleep overshoot), every dispatched event leaves no
earlier than `session_start` plus the cumulative sum of deltas up to it; the
dispatched events carry exactly the cumulative-delta schedule of the source;
and an event whose computed wait is zero or negative is handled without any
suspension, at the clock instant of the reading. -/
theorem c4_no_early_dispatch (start : ℚ) (msgs : List MidiMsg)
    (env : List (ℚ × ℚ)) (henv : ∀ e ∈ env, 0 ≤ e.1 ∧ 0 ≤ e.2) :
    (∀ d ∈ (playLoop start msgs env start 0).dispatches, start + d.2.2 ≤ d.2.1)
      ∧ (playLoop start msgs env start 0).dispatches.map (fun d => (d.1, d.2.2))
          = (cumTimes 0 msgs).filter (fun x => !x.1.isMeta)
      ∧ (∀ (t it : ℚ) (m : MidiMsg) (pre post : ℚ),
          it + m.time - (t + pre - start) ≤ 0 →
          playStep start t it m pre post = ⟨t + pre, it + m.time, false⟩) := by
  refine ⟨playLoop_no_early start msgs env start 0 henv, playLoop_schedule start msgs env start 0, ?_⟩
  intro t it m pre post hle
  simp only [playStep]
  rw [if_neg (by push_neg; linarith)]

/-- C4 witness: the no-early-dispatch property instantiated on a concrete
one-note source with a jitter-free environment. -/
theorem c4_no_early_dispatch_witness :
    (∀ d ∈ (playLoop 0 [⟨1, false, 60⟩] [] 0 0).dispatches, 0 + d.2.2 ≤ d.2.1)
      ∧ (playLoop 0 [⟨1, false, 60⟩] [] 0 0).dispatches.map (fun d => (d.1, d.2.2))
          = (cumTimes 0 [⟨1, false, 60⟩]).filter (fun x => !x.1.isMeta)
      ∧ (∀ (t it : ℚ) (m : MidiMsg) (pre post : ℚ),
          it + m.time - (t + pre - 0) ≤ 0 →
          playStep 0 t it m pre post = ⟨t + pre, it + m.time, false⟩) :=
  c4_no_early_dispatch 0 [⟨1, false, 60⟩] [] (by simp)

/-- C10: `delay_ms` is dead in `capture_performance`: two invocations that
differ only in `delay_ms` produce identical results — same dispatched
events and timings, same termination, same file effect. -/
theorem c10_delay_ms_no_effect (d1 d2 : ℤ) (nc : ℕ) (cm : Option (List ℕ))
    (msgs : List MidiMsg) (env : List (ℚ × ℚ)) (orc : Oracle) (blocks : List ℕ) :
    capture_performance d1 nc cm msgs env orc blocks
      = capture_performance d2 nc cm msgs env orc blocks := rfl

/-- C2: a `KeyboardInterrupt` at any iteration of the guarded block (all
streams open), with the teardown file operations succeeding, leaves no
destination file on disk, resets the MIDI output exactly once, and ends the
process via `sys.exit` with the distinguished non-zero status 130. -/
theorem c2_interrupt_cleanup (d : ℤ) (nc : ℕ) (cm : Option (List ℕ))
    (msgs : List MidiMsg) (env : List (ℚ × ℚ)) (orc : Oracle) (blocks : List ℕ)
    (k : ℕ)
    (hcfg : ¬(pyTruthy cm ∧ nc ≠ (cm.getD []).length))
    (hparse : orc.parseOk = true) (hport : orc.portOk = true)
    (hfile : orc.fileOk = true) (hstream : orc.streamOk = true)
    (hint : orc.interruptAt = some k)
    (hclose : orc.closeFails = false) (hunlink : orc.unlinkFails = false) :
    (capture_performance d nc cm msgs env orc blocks).fileExists = false
      ∧ (capture_performance d nc cm msgs env orc blocks).resetCount = 1
      ∧ (capture_performance d nc cm msgs env orc blocks).outcome = .exited 130
      ∧ (130 : ℕ) ≠ 0 := by
  simp [capture_performance, if_neg hcfg, hparse, hport, hfile, hstream, hint,
    hclose, hunlink]

/-- C2 witness: a concrete session interrupted at its second loop iteration
is torn down with the file gone, one reset, and exit status 130. -/
theorem c2_interrupt_cleanup_witness :
    (capture_performance 500 2 none [⟨1, false, 60⟩, ⟨1, false, 62⟩] []
          ⟨true, true, true, true, some 1, false, false⟩ []).fileExists = false
      ∧ (capture_performance 500 2 none [⟨1, false, 60⟩, ⟨1, false, 62⟩] []
          ⟨true, true, true, true, some 1, false, false⟩ []).resetCount = 1
      ∧ (capture_performance 500 2 none [⟨1, false, 60⟩, ⟨1, false, 62⟩] []
          ⟨true, true, true, true, some 1, false, false⟩ []).outcome = .exited 130
      ∧ (130 : ℕ) ≠ 0 :=
  c2_interrupt_cleanup 500 2 none [⟨1, false, 60⟩, ⟨1, false, 62⟩] []
    ⟨true, true, true, true, some 1, false, false⟩ [] 1
    (by decide) rfl rfl rfl rfl rfl rfl rfl

/-- C3 counterexample: the teardown handler (app.py lines 128-132) is
straight-line code with no exception guard, so when `Path(file.name).unlink()`
raises (second session below) or `file.close()` raises (third session), the
MIDI reset on line 130 is never reached: the reset count stays 0, refuting
the claim that the channel is reset regardless of the audio-side teardown
outcome. -/
theorem c3_reset_counterexample :
    (capture_performance 500 2 none [] []
        ⟨true, true, true, true, some 0, false, true⟩ []).resetCount = 0
      ∧ (capture_performance 500 2 none [] []
        ⟨true, true, true, true, some 0, true, false⟩ []).resetCount = 0 := by
  decide

/-- C3 amended: during interruption teardown the MIDI reset is performed
exactly when both the file close and the artifact deletion succeed; if either
raises, the exception propagates and the reset is skipped. -/
theorem c3_reset_amended (d : ℤ) (nc : ℕ) (cm : Option (List ℕ))
    (msgs : List MidiMsg) (env : List (ℚ × ℚ)) (orc : Oracle) (blocks : List ℕ)
    (k : ℕ)
    (hcfg : ¬(pyTruthy cm ∧ nc ≠ (cm.getD []).length))
    (hparse : orc.parseOk = true) (hport : orc.portOk = true)
    (hfile : orc.fileOk = true) (hstream : orc.streamOk = true)
    (hint : orc.interruptAt = some k) :
    (capture_performance d nc cm msgs env orc blocks).resetCount
      = (if orc.closeFails || orc.unlinkFails then 0 else 1) := by
  simp only [capture_performance, if_neg hcfg, hparse, hport, hfile, hstream, hint]
  cases hc : orc.closeFails <;> cases hu : orc.unlinkFails <;> simp [hc, hu]

/-- C3 amended witness: concrete interrupted session whose unlink fails —
the reset is skipped. -/
theorem c3_reset_amended_witness :
    (capture_performance 500 2 none [] []
        ⟨true, true, true, true, some 0, false, true⟩ []).resetCount
      = (if (Oracle.mk true true true true (some 0) false true).closeFails
            || (Oracle.mk true true true true (some 0) false true).unlinkFails
         then 0 else 1) :=
  c3_reset_amended 500 2 none [] [] ⟨true, true, true, true, some 0, false, true⟩ [] 0
    (by decide) rfl rfl rfl rfl rfl

/-! ### Helper lemmas about the batch loop -/

theorem fsLookup_cons_ne (k k2 : FPath) (v : List ℕ) (fs : List (FPath × List ℕ))
    (h : k ≠ k2) : fsLookup k ((k2, v) :: fs) = fsLookup k fs := by
  simp [fsLookup, h]

theorem runLoop_preserves (cfg : RunCfg) (orc : FPath → Oracle)
    (msgs : FPath → List MidiMsg) (env : FPath → List (ℚ × ℚ))
    (blocks : FPath → List ℕ) (k : FPath) :
    ∀ (sources : List FPath) (fs : List (FPath × List ℕ)),
      (fsLookup k fs).isSome = true →
      fsLookup k (runLoop cfg orc msgs env blocks sources fs).2.1 = fsLookup k fs := by
  intro sources
  induction sources with
  | nil => intro fs _; rfl
  | cons p ps ih =>
    intro fs hk
    by_cases hskip : (fsLookup (deriveDest cfg p) fs).isSome
    · simp only [runLoop, hskip, if_true]
      exact ih fs hk
    · have hne : k ≠ deriveDest cfg p := by
        intro he
        rw [he] at hk
        simp [hk] at hskip
      simp only [runLoop]
      rw [if_neg hskip]
      generalize capture_performance cfg.delayMs cfg.numChannels cfg.channelMap
        (msgs p) (env p) (orc p) (blocks p) = r
      have hfs2 : fsLookup k (if r.fileExists then (deriveDest cfg p, r.fileContent) :: fs else fs)
          = fsLookup k fs := by
        by_cases hfe : r.fileExists <;> simp [hfe, fsLookup_cons_ne _ _ _ _ hne]
      cases ho : r.outcome with
      | returned =>
        simp only [ho]
        rw [ih _ (by rw [hfs2]; exact hk), hfs2]
      | exited c => simpa [ho] using hfs2
      | raised e => simpa [ho] using hfs2

theorem runLoop_skips (cfg : RunCfg) (orc : FPath → Oracle)
    (msgs : FPath → List MidiMsg) (env : FPath → List (ℚ × ℚ))
    (blocks : FPath → List ℕ) (p : FPath) :
    ∀ (sources : List FPath) (fs : List (FPath × List ℕ)),
      (fsLookup (deriveDest cfg p) fs).isSome = true →
      p ∉ (runLoop cfg orc msgs env blocks sources fs).1 := by
  intro sources
  induction sources with
  | nil => intro fs _ h; simp [runLoop] at h
  | cons q qs ih =>
    intro fs hk
    by_cases hskip : (fsLookup (deriveDest cfg q) fs).isSome
    · simp only [runLoop, hskip, if_true]
      exact ih fs hk
    · have hpq : p ≠ q := by
        intro he
        rw [he] at hk
        exact hskip hk
      have hne : deriveDest cfg p ≠ deriveDest cfg q := by
        intro he
        rw [he] at hk
        exact hskip hk
      simp only [runLoop]
      rw [if_neg hskip]
      generalize capture_performance cfg.delayMs cfg.numChannels cfg.channelMap
        (msgs q) (env q) (orc q) (blocks q) = r
      have hfs2 : (fsLookup (deriveDest cfg p)
          (if r.fileExists then (deriveDest cfg q, r.fileContent) :: fs else fs)).isSome = true := by
        by_cases hfe : r.fileExists <;> simp [hfe, fsLookup_cons_ne _ _ _ _ hne, hk]
      cases ho : r.outcome with
      | returned =>
        simp only [ho, List.mem_cons, not_or]
        exact ⟨hpq, ih _ hfs2⟩
      | exited c => simp [ho, hpq]
      | raised e => simp [ho, hpq]

theorem configCheck_rejects (nc : ℕ) (cm : Option (List ℕ)) (cd : Option (ℚ × ℚ))
    (h : cd = none
      ∨ (∃ t r, cd = some (t, r) ∧ 0 < r ∧ 5 < t / r)
      ∨ (∃ l, cm = some l ∧ l ≠ [] ∧ nc ≠ l.length)) :
    ∃ rej, configCheck nc cm cd = some rej := by
  by_cases hch : pyTruthy cm ∧ nc ≠ (cm.getD []).length
  · exact ⟨.channelMismatch, by simp [configCheck, hch]⟩
  · rcases h with hcd | ⟨t, r, hcd, hr0, hr5⟩ | ⟨l, hl, hne, hlen⟩
    · exact ⟨.cooldownMissing, by simp [configCheck, hch, hcd]⟩
    · refine ⟨.ratioTooHigh, ?_⟩
      simp [configCheck, hch, hcd, ne_of_gt hr0, hr5]
    · exfalso
      apply hch
      constructor
      · simp [pyTruthy, hl, List.isEmpty_iff, hne]
      · simpa [hl] using hlen

theorem run_of_configOk (cfg : RunCfg) (sources : List FPath)
    (orc : FPath → Oracle) (msgs : FPath → List MidiMsg)
    (env : FPath → List (ℚ × ℚ)) (blocks : FPath → List ℕ)
    (fs : List (FPath × List ℕ))
    (h : configCheck cfg.numChannels cfg.channelMap cfg.cooldown = none) :
    run cfg sources orc msgs env blocks fs
      = ⟨none, (runLoop cfg orc msgs env blocks sources fs).1,
          (runLoop cfg orc msgs env blocks sources fs).2.1,
          (runLoop cfg orc msgs env blocks sources fs).2.2⟩ := by
  simp [run, h]

theorem configCheck_default_cooldown (nc : ℕ) (cm : Option (List ℕ))
    (h : ¬(pyTruthy cm ∧ nc ≠ (cm.getD []).length)) :
    configCheck nc cm (some (15, 3)) = none := by
  simp only [configCheck, if_neg h]
  norm_num

/-! ### Claim theorems: the batch runner -/

/-- C5 counterexample: `num_channels = 2` differs from `len(channel_map) = 0`
for `channel_map = []`, yet because an empty list is falsy in Python the
mismatch guard (app.py line 204) is skipped: the batch is not rejected, the
session for `a.mid` runs, and its output file is created — refuting the
claim that any `num_channels != len(channel_map)` configuration exits with
zero sessions run. -/
theorem c5_mismatch_counterexample :
    run ⟨0, 2, some [], some (15, 3), "", 0, []⟩ [⟨[], "a", ".mid"⟩]
        (fun _ => ⟨true, true, true, true, none, false, false⟩)
        (fun _ => []) (fun _ => []) (fun _ => []) []
      = ⟨none, [⟨[], "a", ".mid"⟩], [(⟨[], "a", ".wav"⟩, [])], none⟩ := by
  rw [run_of_configOk _ _ _ _ _ _ _ (configCheck_default_cooldown 2 (some []) (by decide))]
  decide

/-- C5 amended: a `None` cooldown, a cooldown ratio `threshold/rest > 5.0`
(with a positive rest), or `num_channels != len(channel_map)` for a
*non-empty* `channel_map` (an empty or absent map is falsy and bypasses the
guard) each make `run` exit with a non-zero status before any session: zero
sessions run and the file system is untouched. -/
theorem c5_config_reject_amended (cfg : RunCfg) (sources : List FPath)
    (orc : FPath → Oracle) (msgs : FPath → List MidiMsg)
    (env : FPath → List (ℚ × ℚ)) (blocks : FPath → List ℕ)
    (fs : List (FPath × List ℕ))
    (h : cfg.cooldown = none
      ∨ (∃ t r, cfg.cooldown = some (t, r) ∧ 0 < r ∧ 5 < t / r)
      ∨ (∃ l, cfg.channelMap = some l ∧ l ≠ [] ∧ cfg.numChannels ≠ l.length)) :
    ∃ rej, run cfg sources orc msgs env blocks fs = ⟨some rej, [], fs, none⟩
      ∧ configExitCode rej ≠ 0 := by
  obtain ⟨rej, hrej⟩ := configCheck_rejects cfg.numChannels cfg.channelMap cfg.cooldown h
  refine ⟨rej, ?_, ?_⟩
  · simp [run, hrej]
  · cases rej <;> simp [configExitCode]

/-- C5 amended witness: a batch run configured with `cooldown=None` is
rejected with a non-zero exit, no sessions, and an untouched file system. -/
theorem c5_config_reject_amended_witness :
    ∃ rej, run ⟨0, 2, none, none, "", 0, []⟩ [⟨[], "a", ".mid"⟩]
        (fun _ => ⟨true, true, true, true, none, false, false⟩)
        (fun _ => []) (fun _ => []) (fun _ => []) []
      = ⟨some rej, [], [], none⟩ ∧ configExitCode rej ≠ 0 :=
  c5_config_reject_amended ⟨0, 2, none, none, "", 0, []⟩ [⟨[], "a", ".mid"⟩]
    (fun _ => ⟨true, true, true, true, none, false, false⟩)
    (fun _ => []) (fun _ => []) (fun _ => []) [] (Or.inl rfl)

/-! ### Helper lemmas: device failures and the cooldown loop -/

theorem capture_device_abort (d : ℤ) (nc : ℕ) (cm : Option (List ℕ))
    (ms : List MidiMsg) (ev : List (ℚ × ℚ)) (o : Oracle) (bl : List ℕ)
    (hcfg : ¬(pyTruthy cm ∧ nc ≠ (cm.getD []).length))
    (hparse : o.parseOk = true)
    (hdev : o.portOk = false ∨ o.fileOk = false ∨ o.streamOk = false) :
    ∃ e, (capture_performance d nc cm ms ev o bl).outcome = .raised e
      ∧ (capture_performance d nc cm ms ev o bl).dispatched = [] := by
  rcases hdev with h | h | h
  · exact ⟨.outPort, by simp [capture_performance, if_neg hcfg, hparse, h]⟩
  · cases hpo : o.portOk
    · exact ⟨.outPort, by simp [capture_performance, if_neg hcfg, hparse, hpo]⟩
    · exact ⟨.soundFile, by simp [capture_performance, if_neg hcfg, hparse, hpo, h]⟩
  · cases hpo : o.portOk
    · exact ⟨.outPort, by simp [capture_performance, if_neg hcfg, hparse, hpo]⟩
    · cases hfo : o.fileOk
      · exact ⟨.soundFile, by simp [capture_performance, if_neg hcfg, hparse, hpo, hfo]⟩
      · exact ⟨.inputStream, by simp [capture_performance, if_neg hcfg, hparse, hpo, hfo, h]⟩

theorem memTimes_cons (x y : ℚ) (ys : List ℚ) (h : memTimes x ys = true) :
    memTimes x (y :: ys) = true := by
  by_cases hxy : x = y <;> simp [memTimes, hxy, h]

theorem cooldown_gap_aux (thr dur : ℚ) :
    ∀ (steps : List (ℚ × ℚ × ℚ)) (t timer : ℚ),
      restGaps thr (cooldownLoop thr dur steps t timer).rests = true
        ∧ (∀ a l, (cooldownLoop thr dur steps t timer).rests = a :: l →
            thr < a.1 - timer) := by
  intro steps
  induction steps with
  | nil =>
    intro t timer
    exact ⟨rfl, by intro a l h; simp [cooldownLoop] at h⟩
  | cons s ss ih =>
    intro t timer
    simp only [cooldownLoop]
    by_cases hc : thr < t + s.1 - timer
    · rw [if_pos hc]
      constructor
      · cases hr : (cooldownLoop thr dur ss (t + s.1 + dur + s.2.1 + s.2.2)
            (t + s.1 + dur + s.2.1)).rests with
        | nil => simp [restGaps, hr]
        | cons b l =>
          have hb := (ih (t + s.1 + dur + s.2.1 + s.2.2) (t + s.1 + dur + s.2.1)).2 b l hr
          have hg := (ih (t + s.1 + dur + s.2.1 + s.2.2) (t + s.1 + dur + s.2.1)).1
          rw [hr] at hg
          simp only [restGaps, hr, Bool.and_eq_true, decide_eq_true_eq]
          exact ⟨by linarith, hg⟩
      · intro a l h
        rw [List.cons_eq_cons] at h
        rw [← h.1]
        simpa using hc
    · rw [if_neg hc]
      exact ih (t + s.1 + s.2.2) timer

theorem cooldown_rest_boundary (thr dur : ℚ) :
    ∀ (steps : List (ℚ × ℚ × ℚ)) (t timer : ℚ),
      ∀ r ∈ (cooldownLoop thr dur steps t timer).rests,
        memTimes r.1 (cooldownLoop thr dur steps t timer).boundaries = true := by
  intro steps
  induction steps with
  | nil => intro t timer r hr; simp [cooldownLoop] at hr
  | cons s ss ih =>
    intro t timer r hr
    simp only [cooldownLoop] at hr ⊢
    by_cases hc : thr < t + s.1 - timer
    · rw [if_pos hc] at hr ⊢
      simp only [List.mem_cons] at hr
      rcases hr with rfl | hr
      · simp [memTimes]
      · exact memTimes_cons _ _ _ (ih _ _ r hr)
    · rw [if_neg hc] at hr ⊢
      exact memTimes_cons _ _ _ (ih _ _ r hr)

/-! ### Claim theorems: remaining -/

/-- C6 counterexample: a batch of two sources where opening the MIDI output
port fails for the first. The exception raised by `open_output` is caught
nowhere (neither in `capture_performance` nor in `run`'s loop), so the batch
stops: the second source is never processed, refuting the claim that the
batch continues with the next source file after a device error. -/
theorem c6_batch_stop_counterexample :
    run ⟨500, 2, none, some (15, 3), "", 0, []⟩
        [⟨[], "a", ".mid"⟩, ⟨[], "b", ".mid"⟩]
        (fun p => if p = ⟨[], "a", ".mid"⟩
          then ⟨true, false, true, true, none, false, false⟩
          else ⟨true, true, true, true, none, false, false⟩)
        (fun _ => []) (fun _ => []) (fun _ => []) []
      = ⟨none, [⟨[], "a", ".mid"⟩], [], some (.uncaught .outPort)⟩ := by
  rw [run_of_configOk _ _ _ _ _ _ _ (configCheck_default_cooldown 2 none (by decide))]
  decide

/-- C6 amended: a device error while opening the MIDI output port, the
destination sound file or the audio input stream aborts the session before
playback (no event is dispatched), but the exception propagates uncaught:
the batch loop stops at that source instead of continuing with the next one
(only a MIDI parse error is caught and skipped). -/
theorem c6_device_error_amended (cfg : RunCfg) (p : FPath) (ps : List FPath)
    (orc : FPath → Oracle) (msgs : FPath → List MidiMsg)
    (env : FPath → List (ℚ × ℚ)) (blocks : FPath → List ℕ)
    (fs : List (FPath × List ℕ))
    (hcfg : ¬(pyTruthy cfg.channelMap ∧ cfg.numChannels ≠ (cfg.channelMap.getD []).length))
    (hnew : (fsLookup (deriveDest cfg p) fs).isSome = false)
    (hparse : (orc p).parseOk = true)
    (hdev : (orc p).portOk = false ∨ (orc p).fileOk = false ∨ (orc p).streamOk = false) :
    (capture_performance cfg.delayMs cfg.numChannels cfg.channelMap
        (msgs p) (env p) (orc p) (blocks p)).dispatched = []
      ∧ (runLoop cfg orc msgs env blocks (p :: ps) fs).1 = [p]
      ∧ ∃ e, (runLoop cfg orc msgs env blocks (p :: ps) fs).2.2
          = some (.uncaught e) := by
  obtain ⟨e, ho, hd⟩ := capture_device_abort cfg.delayMs cfg.numChannels cfg.channelMap
    (msgs p) (env p) (orc p) (blocks p) hcfg hparse hdev
  refine ⟨hd, ?_⟩
  simp only [runLoop]
  rw [if_neg (by rw [hnew]; exact Bool.false_ne_true)]
  refine ⟨?_, e, ?_⟩ <;> simp [ho]

/-- C6 amended witness: concrete batch whose head source has a failing MIDI
output port: nothing dispatched, loop stops at that source with an uncaught
exception. -/
theorem c6_device_error_amended_witness :
    (capture_performance (500 : ℤ) 2 none [] []
        ((fun p => if p = (⟨[], "a", ".mid"⟩ : FPath)
          then (⟨true, false, true, true, none, false, false⟩ : Oracle)
          else ⟨true, true, true, true, none, false, false⟩) ⟨[], "a", ".mid"⟩) []).dispatched = []
      ∧ (runLoop ⟨500, 2, none, some (15, 3), "", 0, []⟩
          (fun p => if p = ⟨[], "a", ".mid"⟩
            then ⟨true, false, true, true, none, false, false⟩
            else ⟨true, true, true, true, none, false, false⟩)
          (fun _ => []) (fun _ => []) (fun _ => [])
          [⟨[], "a", ".mid"⟩, ⟨[], "b", ".mid"⟩] []).1 = [⟨[], "a", ".mid"⟩]
      ∧ ∃ e, (runLoop ⟨500, 2, none, some (15, 3), "", 0, []⟩
          (fun p => if p = ⟨[], "a", ".mid"⟩
            then ⟨true, false, true, true, none, false, false⟩
            else ⟨true, true, true, true, none, false, false⟩)
          (fun _ => []) (fun _ => []) (fun _ => [])
          [⟨[], "a", ".mid"⟩, ⟨[], "b", ".mid"⟩] []).2.2 = some (.uncaught e) :=
  c6_device_error_amended ⟨500, 2, none, some (15, 3), "", 0, []⟩
    ⟨[], "a", ".mid"⟩ [⟨[], "b", ".mid"⟩]
    (fun p => if p = ⟨[], "a", ".mid"⟩
      then ⟨true, false, true, true, none, false, false⟩
      else ⟨true, true, true, true, none, false, false⟩)
    (fun _ => []) (fun _ => []) (fun _ => []) []
    (by decide) (by decide) (by decide) (Or.inl (by decide))

/-- C7: across a batch, any two consecutive forced rests of the cooldown
scheduler are separated by more than the threshold: the wall-clock gap
between the end of one rest and the start of the next is never below `thr`.
Moreover every rest starts at one of the boundary instants at which the
check runs (the check runs only between sessions, so a session in progress
is never interrupted). Holds for every initial time and every trace of
session durations and jitters. -/
theorem c7_cooldown_gap (thr dur t0 : ℚ) (steps : List (ℚ × ℚ × ℚ)) :
    restGaps thr (cooldownLoop thr dur steps t0 t0).rests = true
      ∧ (cooldownLoop thr dur steps t0 t0).rests.all
          (fun r => memTimes r.1 (cooldownLoop thr dur steps t0 t0).boundaries) = true := by
  refine ⟨(cooldown_gap_aux thr dur steps t0 t0).1, ?_⟩
  rw [List.all_eq_true]
  intro r hr
  exact cooldown_rest_boundary thr dur steps t0 t0 r hr

/-- C8: a source whose derived destination file already exists when the
batch starts is never given a capture session, and its destination file is
unchanged when the batch ends — whatever the other sources do. -/
theorem c8_resume_skip (cfg : RunCfg) (sources : List FPath)
    (orc : FPath → Oracle) (msgs : FPath → List MidiMsg)
    (env : FPath → List (ℚ × ℚ)) (blocks : FPath → List ℕ)
    (fs : List (FPath × List ℕ)) (p : FPath)
    (hin : p ∈ sources)
    (hex : (fsLookup (deriveDest cfg p) fs).isSome = true) :
    p ∉ (run cfg sources orc msgs env blocks fs).invoked
      ∧ fsLookup (deriveDest cfg p) (run cfg sources orc msgs env blocks fs).fs
        = fsLookup (deriveDest cfg p) fs := by
  cases hcc : configCheck cfg.numChannels cfg.channelMap cfg.cooldown with
  | some rej => simp [run, hcc]
  | none =>
    simp only [run, hcc]
    exact ⟨runLoop_skips cfg orc msgs env blocks p sources fs hex,
      runLoop_preserves cfg orc msgs env blocks (deriveDest cfg p) sources fs hex⟩

/-- C8 witness: re-running over a source whose `.wav` destination exists
leaves the file untouched and invokes no session for it. -/
theorem c8_resume_skip_witness :
    (⟨[], "a", ".mid"⟩ : FPath) ∉ (run ⟨500, 2, none, some (15, 3), "", 0, []⟩
        [⟨[], "a", ".mid"⟩] (fun _ => ⟨true, true, true, true, none, false, false⟩)
        (fun _ => []) (fun _ => []) (fun _ => [])
        [(⟨[], "a", ".wav"⟩, [7])]).invoked
      ∧ fsLookup (deriveDest ⟨500, 2, none, some (15, 3), "", 0, []⟩ ⟨[], "a", ".mid"⟩)
          (run ⟨500, 2, none, some (15, 3), "", 0, []⟩
            [⟨[], "a", ".mid"⟩] (fun _ => ⟨true, true, true, true, none, false, false⟩)
            (fun _ => []) (fun _ => []) (fun _ => [])
            [(⟨[], "a", ".wav"⟩, [7])]).fs
        = fsLookup (deriveDest ⟨500, 2, none, some (15, 3), "", 0, []⟩ ⟨[], "a", ".mid"⟩)
            [(⟨[], "a", ".wav"⟩, [7])] :=
  c8_resume_skip ⟨500, 2, none, some (15, 3), "", 0, []⟩ [⟨[], "a", ".mid"⟩]
    (fun _ => ⟨true, true, true, true, none, false, false⟩)
    (fun _ => []) (fun _ => []) (fun _ => []) [(⟨[], "a", ".wav"⟩, [7])]
    ⟨[], "a", ".mid"⟩ (by decide) (by decide)

/-- C9: evaluation of the `stereo=False` weight guard of `process_wav_files`
at the failing inputs. An absent (`None`) `channel_weights` does get the
explicit `ValueError`, but every actual list — including the non-empty
default `[0, 0, 0.8, 0.8, 0.1, 0.1]` — hits the `len(channel_weights < 1)`
slip on line 37 and raises `TypeError` before the transcoding call, instead
of passing validation as the claim (and the intent, compare the correct
`len(stereo_c0_weights) < 1` in the stereo branch) requires. -/
theorem c9_channel_weights_guard_eval :
    channelWeightsGuard none = .error .valueError
      ∧ channelWeightsGuard (some []) = .error .typeError
      ∧ channelWeightsGuard (some [0, 0, 8/10, 8/10, 1/10, 1/10])
        = .error .typeError :=
  ⟨rfl, rfl, rfl⟩

end PianoCapture
